import Mathlib

/-!
Shallow embedding of the network-provisioning firmware in NanoWeb.py
(credential store, retry primitive, connection manager, Nanoweb HTTP
engine and the captive-portal handlers), together with theorems that
check the specification's claims against it.
-/

namespace Pawbot

/-! ### Python value helpers -/

/-- Exceptions the embedded Python fragments can raise. -/
inductive PyExc where
  | typeError
  | zeroDivisionError
  | indexError
deriving DecidableEq, Repr

/-- Python numbers as they flow through the embedded code: an int, or a
float (modelled as a rational; the only floats that appear are exact small
values, and the code paths below depend only on the dynamic tag). -/
inductive PyNum where
  | int (n : Int)
  | float (q : ℚ)
deriving DecidableEq, Repr

/-- Python 3 true division `a / b` on two ints: raises ZeroDivisionError on a
zero divisor and otherwise produces a float, never an int. -/
def pyTrueDiv (a b : Int) : Except PyExc PyNum :=
  if b = 0 then .error .zeroDivisionError else .ok (.float ((a : ℚ) / (b : ℚ)))

/-- Iteration count of `for i in range(n)`: a negative int yields zero
iterations, and a float argument raises TypeError (as in both CPython and
MicroPython, where `range` demands an int). -/
def pyRangeLen : PyNum → Except PyExc Nat
  | .int n => .ok n.toNat
  | .float _ => .error .typeError

/-- Python truthiness of `d.get(k)` for a string-valued key: `None` and the
empty string are the falsy cases. -/
def pyFalsy : Option String → Bool
  | none => true
  | some s => s == ""

/-- Python dict lookup `d.get(k)` on a string-keyed dict kept as an
insertion-ordered association list. -/
def dictGet (m : List (String × String)) (k : String) : Option String :=
  (m.find? (fun p => p.1 == k)).map (fun p => p.2)

/-! ### CredManager (NanoWeb.py lines 10-45) -/

/-- Mapping held by the credential store: a Python dict from ssid to
password, as an insertion-ordered association list. -/
abbrev Creds := List (String × String)

/-- Python dict assignment `d[k] = v`: overwrite in place when the key
exists (keeping its position), otherwise append. -/
def credsSet (m : Creds) (k v : String) : Creds :=
  if (m.find? (fun p => p.1 == k)).isSome then
    m.map (fun p => if p.1 == k then (k, v) else p)
  else m ++ [(k, v)]

/-- Python dict deletion `del d[k]`. -/
def credsDel (m : Creds) (k : String) : Creds :=
  m.filter (fun p => p.1 != k)

/-- State of a `CredManager`: the in-memory dict `credentials` and the
parsed contents of the backing file `wifi.dat`. -/
structure CredManager where
  credentials : Creds
  file : Creds
deriving DecidableEq, Repr

/-- Awaited `save()` (`await cred_manager.save()`, as the HTTP handlers run
it): dumps the whole in-memory mapping into the backing file. -/
def CredManager.save (s : CredManager) : CredManager :=
  { s with file := s.credentials }

/-- Un-awaited `self.save()` as written inside `add`, `remove` and `clear`:
`save` is an `async def`, so the bare call merely constructs a coroutine
object that is discarded and never scheduled — the backing file is not
touched. -/
def CredManager.unawaitedSave (s : CredManager) : CredManager := s

/-- Source `add` (lines 27-29): upsert into the dict, then the un-awaited
`self.save()`. -/
def CredManager.add (s : CredManager) (ssid password : String) : CredManager :=
  CredManager.unawaitedSave { s with credentials := credsSet s.credentials ssid password }

/-- Source `remove` (lines 31-34): delete the key and run the un-awaited
`self.save()` only when the key is present. -/
def CredManager.remove (s : CredManager) (ssid : String) : CredManager :=
  if (dictGet s.credentials ssid).isSome then
    CredManager.unawaitedSave { s with credentials := credsDel s.credentials ssid }
  else s

/-- Source `clear` (lines 36-38): reset the dict to empty, then the
un-awaited `self.save()`. -/
def CredManager.clear (s : CredManager) : CredManager :=
  CredManager.unawaitedSave { s with credentials := [] }

/-- Source `get` (lines 40-42): `(ssid, password) if password else None` —
an absent key and a falsy (empty) secret both yield `None`. -/
def CredManager.get (s : CredManager) (ssid : String) : Option (String × String) :=
  match dictGet s.credentials ssid with
  | none => none
  | some password => if password == "" then none else some (ssid, password)

/-- Source `list` (lines 44-45): the stored pairs in dict (insertion)
order. -/
def CredManager.list (s : CredManager) : Creds := s.credentials

/-! ### retry_until (NanoWeb.py lines 507-515) -/

/-- Observable outcome of one `retry_until` run: the returned pair
(`success`, `result`), plus instrumentation counting how many times
`action()` was invoked and how many `asyncio.sleep_ms(delay_ms)`
suspensions occurred. -/
structure RetryTrace (α : Type) where
  success : Bool
  result : Option α
  calls : Nat
  sleeps : Nat
deriving DecidableEq, Repr

/-- Loop of `retry_until` with `i` attempts already performed; the stream
`action` supplies the result of the `i`-th invocation of `action()`. Each
failed attempt sleeps before the next iteration (the final failed attempt
sleeps as well, matching the source loop). -/
def retryGo (predicate : α → Bool) (action : Nat → α) (i : Nat) : Nat → RetryTrace α
  | 0 => ⟨false, none, i, i⟩
  | fuel + 1 =>
    let result := action i
    if predicate result then ⟨true, some result, i + 1, i⟩
    else retryGo predicate action (i + 1) fuel

/-- Source `retry_until` once `max_retries` has been turned into an
iteration count by `range`; on exhaustion it returns (False, None).
`delay_ms` only scales the duration of each sleep and never changes control
flow, so the trace records the number of sleeps. -/
def retry_until (predicate : α → Bool) (action : Nat → α) (max_retries : Nat)
    (delay_ms : Nat) : RetryTrace α :=
  retryGo predicate action 0 max_retries

/-- Source `retry_until` as called with a raw Python value for
`max_retries`: `for i in range(max_retries)` raises TypeError when the
value is a float. -/
def retry_untilPy (predicate : α → Bool) (action : Nat → α) (max_retries : PyNum)
    (delay_ms : Nat) : Except PyExc (RetryTrace α) :=
  (pyRangeLen max_retries).map (fun n => retry_until predicate action n delay_ms)

/-! ### ConnectionManager.connect (NanoWeb.py lines 83-96 and 119-145) -/

/-- Station-radio state touched by `connect`: whether `wlan_sta` is active
and the last `wlan_sta.connect(ssid, password)` request issued. -/
structure StaRadio where
  active : Bool
  connectAttempt : Option (String × String)
deriving DecidableEq, Repr

/-- Source `connected(max_retries, delay_ms)` (lines 83-96): polls the
station radio through `retry_until`; `oracle i` is what
`wlan_sta.isconnected()` returns at the `i`-th poll. -/
def ConnectionManager.connectedPoll (oracle : Nat → Bool) (max_retries : PyNum)
    (delay_ms : Nat) : Except PyExc Bool :=
  (retry_untilPy (fun result => result == true) oracle max_retries delay_ms).map
    (fun t => t.success)

/-- Source `connect(ssid, password, timeout_ms)` (lines 119-145): activates
the station radio, issues the connect request, computes
`max_retries = timeout_ms / delay_ms` with `delay_ms = 1000` (Python true
division, hence a float), and polls through `connected`; when polling
reports failure it deactivates the radio and returns False. The result is
the final radio state together with the outcome; a raised exception leaves
the state as it was at the raise point. The radio state is fully determined
by this call, so no incoming state is threaded. -/
def ConnectionManager.connect (oracle : Nat → Bool) (ssid password : String)
    (timeout_ms : Int) : StaRadio × Except PyExc Bool :=
  let sta1 : StaRadio := { active := true, connectAttempt := some (ssid, password) }
  match pyTrueDiv timeout_ms 1000 with
  | .error e => (sta1, .error e)
  | .ok maxRetries =>
    match ConnectionManager.connectedPoll oracle maxRetries 1000 with
    | .error e => (sta1, .error e)
    | .ok true => (sta1, .ok true)
    | .ok false => ({ sta1 with active := false }, .ok false)

/-! ### String helpers mirroring the Python primitives -/

/-- Accumulating core of Python `str.split()` (no arguments): whitespace
runs separate words and produce no empty pieces. -/
def pySplitAux : List Char → List Char → List String
  | cur, [] => if cur.isEmpty then [] else [String.mk cur.reverse]
  | cur, c :: cs =>
    if c.isWhitespace then
      if cur.isEmpty then pySplitAux [] cs
      else String.mk cur.reverse :: pySplitAux [] cs
    else pySplitAux (c :: cur) cs

/-- Python `str.split()` with no arguments. -/
def pySplit (s : String) : List String := pySplitAux [] s.data

/-- Accumulating core of Python `line.split(":", 1)`. -/
def splitColonAux : List Char → List Char → List String
  | pre, [] => [String.mk pre.reverse]
  | pre, c :: cs =>
    if c = ':' then [String.mk pre.reverse, String.mk cs]
    else splitColonAux (c :: pre) cs

/-- Python `line.split(":", 1)`: at most one split, at the first colon; a
line without a colon yields a single piece. -/
def splitColonOnce (s : String) : List String := splitColonAux [] s.data

/-- Python `str.strip()`: drop whitespace from both ends. -/
def pyStrip (s : String) : String :=
  String.mk
    (((s.data.dropWhile fun c => c.isWhitespace).reverse.dropWhile
      fun c => c.isWhitespace).reverse)

/-! ### Response writers (NanoWeb.py lines 305-338) -/

/-- Output of `ujson.dumps` on a single-entry dict of plain strings (none of
the embedded messages contains a character that JSON escaping would
change). -/
def jsonDumps1 (key val : String) : String :=
  "\x7b\"" ++ key ++ "\": \"" ++ val ++ "\"\x7d"

/-- Writes performed by the default error responder `error(request, code,
reason)` (lines 318-320): a status line followed by an HTML body. -/
def error (code : Nat) (reason : String) : List String :=
  ["HTTP/1.1 " ++ toString code ++ " " ++ reason ++ "\r\n\r\n",
   "<h1>" ++ reason ++ "</h1>"]

/-- Writes performed by `json_write(request, response_json)`
(lines 330-333). -/
def json_write (response_json : String) : List String :=
  ["HTTP/1.1 200 OK\r\n",
   "Content-Type: application/json\r\n\r\n",
   response_json]

/-- Writes performed by `json_error(request, code, reason, message)`
(lines 335-338): a status line, the JSON content-type header block and the
body `\x7b"error": message\x7d`. -/
def json_error (code : Nat) (reason message : String) : List String :=
  ["HTTP/1.1 " ++ toString code ++ " " ++ reason ++ "\r\n",
   "Content-Type: application/json\r\n\r\n",
   jsonDumps1 "error" message]

/-! ### Request body and the /wifi/add handler (NanoWeb.py lines 230-247,
308-328) -/

/-- Request body as `json_read` sees it: no usable content (`read` returned
`""` because Content-Length was absent or the transport read failed), a
body `ujson.loads` rejects, or a parsed JSON object with string fields. -/
inductive Body where
  | absent
  | malformed (raw : String)
  | object (fields : List (String × String))
deriving DecidableEq, Repr

/-- Source `json_read` (lines 322-328): parse the body, and on any parse
failure fall back to parsing the literal empty object — so an absent or
malformed body yields the empty dict. -/
def json_read : Body → List (String × String)
  | .absent => []
  | .malformed _ => []
  | .object fields => fields

/-- Source `__wifi_add` (lines 230-247) applied to the parsed body: when
ssid or password is missing or falsy, respond 400 and leave the store
alone; otherwise `cred_manager.add`, the awaited `cred_manager.save()`, and
the success response. Returns (writes, resulting store). -/
def wifi_add (content : List (String × String)) (mgr : CredManager) :
    List String × CredManager :=
  match dictGet content "ssid", dictGet content "password" with
  | some ssid, some password =>
    if ssid == "" || password == "" then
      (json_error 400 "Bad Request" "both ssid and password must be provided", mgr)
    else
      (json_write (jsonDumps1 "status" "credentials saved"),
        (CredManager.add mgr ssid password).save)
  | _, _ => (json_error 400 "Bad Request" "both ssid and password must be provided", mgr)

/-- Source `__wifi_add` from the raw body: `json_read` then the handler. -/
def wifi_add_raw (body : Body) (mgr : CredManager) : List String × CredManager :=
  wifi_add (json_read body) mgr

/-! ### Nanoweb request handling (NanoWeb.py lines 354-494) -/

/-- Header whitelist `extract_headers` (line 356). -/
def extract_headers : List String := ["Authorization", "Content-Length", "Content-Type"]

/-- Header-reading loop (lines 434-445): consume lines, keeping whitelisted
name/value pairs with the value stripped, and stop at the first line that
splits into a single piece (a blank line, or the `""` that `readline`
returns once the input is exhausted). -/
def readHeaders : List String → List (String × String)
  | [] => []
  | line :: rest =>
    match splitColonOnce line with
    | [header, value] =>
      (if header ∈ extract_headers then [(header, pyStrip value)] else []) ++
        readHeaders rest
    | _ => []

/-- Asset extension whitelist `assets_extensions` (line 360). -/
def assets_extensions : List String := ["html", "css", "js"]

/-- Static directory and index document (lines 365-366). -/
def STATIC_DIR : String := "./"

/-- Index document path `INDEX_FILE` (line 366). -/
def INDEX_FILE : String := STATIC_DIR ++ "index.html"

/-- Wildcard test `route[-1] == '*'` for a nonempty pattern: the last
character is the star. -/
def endsInStar (p : String) : Bool := p.data.getLast? == some '*'

/-- Prefix test `request.url.startswith(route[:-1])`. -/
def wildPrefixMatch (p url : String) : Bool :=
  List.isPrefixOf p.data.dropLast url.data

/-- Suffix test `request.url.endswith('.' + extension)`. -/
def pyEndsWith (s suffix : String) : Bool :=
  List.isSuffixOf suffix.data s.data

/-- Outcome of the routing block of `handle` (lines 450-482). -/
inductive Resolution (H : Type) where
  | routed (pattern : String) (handler : H)
  | indexFile
  | assetFile
  | notFound
deriving DecidableEq, Repr

/-- Wildcard scan, the `for route, handler in routes.items()` loop
(lines 457-463): take the first route equal to the url or whose starred
prefix matches it; indexing `route[-1]` on an empty pattern raises
IndexError (short-circuit: only when the equality test failed). -/
def findRouteLoop {H : Type} (url : String) :
    List (String × H) → Except PyExc (Option (String × H))
  | [] => .ok none
  | (p, h) :: rest =>
    if p == url then .ok (some (p, h))
    else if p == "" then .error .indexError
    else if endsInStar p && wildPrefixMatch p url then .ok (some (p, h))
    else findRouteLoop url rest

/-- Routing block of `handle` (lines 450-482), reduced to the decision it
reaches: an exact table hit first (`request.route = url`), then the
wildcard loop, then the index document for an empty or root url, then the
asset-extension check, and finally the 404. -/
def resolveRoute {H : Type} (routes : List (String × H)) (url : String) :
    Except PyExc (Resolution H) :=
  match routes.find? (fun r => r.1 == url) with
  | some (_, h) => .ok (.routed url h)
  | none =>
    match findRouteLoop url routes with
    | .error e => .error e
    | .ok (some (p, h)) => .ok (.routed p h)
    | .ok none =>
      if url == "" || url == "/" then .ok .indexFile
      else if assets_extensions.any (fun ext => pyEndsWith url ("." ++ ext)) then
        .ok .assetFile
      else .ok .notFound

/-- Routing rule exactly as the specification words it: (1) an exact match
in the route table; (2) a route whose pattern ends in the wildcard marker
and whose prefix matches the start of the url; (3) the fixed index document
when the url is empty or the root; (4) the static file when the url ends in
a whitelisted asset extension; (5) otherwise 404. -/
def resolveRouteSpec {H : Type} (routes : List (String × H)) (url : String) :
    Resolution H :=
  match routes.find? (fun r => r.1 == url) with
  | some (_, h) => .routed url h
  | none =>
    match routes.find? (fun r => endsInStar r.1 && wildPrefixMatch r.1 url) with
    | some (p, h) => .routed p h
    | none =>
      if url == "" || url == "/" then .indexFile
      else if assets_extensions.any (fun ext => pyEndsWith url ("." ++ ext)) then
        .assetFile
      else .notFound

/-- Exceptions flowing through `handle`. -/
inductive Exc where
  | httpError (code : Nat) (reason : String)
  | osError (errno : Int)
  | py (e : PyExc)
deriving DecidableEq, Repr

/-- Net effect of a dispatched handler (through `generate_output`): the
byte strings it wrote and the exception escaping it, if any. -/
structure Effect where
  writes : List String
  exc : Option Exc
deriving DecidableEq, Repr

/-- Request fields visible to handlers: method, url, matched route, and the
whitelisted headers. -/
structure Request where
  method : String
  url : String
  route : String
  headers : List (String × String)

/-- Result of one `handle` invocation: everything written to the socket,
whether `writer.aclose()` ran, and any exception propagating out. -/
structure HandleResult where
  writes : List String
  closed : Bool
  raised : Option Exc
deriving DecidableEq, Repr

/-- MicroPython `uerrno.ECONNRESET`. -/
def ECONNRESET : Int := 104

/-- Source `send_file` (lines 340-351) over a filesystem `fs` mapping each
existing filename to its chunk list: a missing file raises `HttpError 404`
(the ENOENT branch); other I/O errors are outside the model. The `binary`
flag selects the open mode and does not change the chunk contents here. -/
def send_file (fs : String → Option (List String)) (filename : String)
    (binary : Bool) : Effect :=
  match fs filename with
  | some chunks => ⟨chunks, none⟩
  | none => ⟨[], some (.httpError 404 "File Not Found")⟩

/-- Tail of `handle` around a dispatched effect: an `HttpError` is rendered
through the default `callback_error` (the HTML `error` writer), a
peer-reset `OSError` is swallowed, anything else re-raises; the `finally`
closes the connection in every one of these cases. -/
def finishEffect (eff : Effect) : HandleResult :=
  match eff.exc with
  | none => ⟨eff.writes, true, none⟩
  | some (.httpError code reason) => ⟨eff.writes ++ error code reason, true, none⟩
  | some (.osError errno) =>
    if errno == ECONNRESET then ⟨eff.writes, true, none⟩
    else ⟨eff.writes, true, some (.osError errno)⟩
  | some (.py e) => ⟨eff.writes, true, some (.py e)⟩

/-- Body of `handle` (lines 429-491) once the request line has exactly
three tokens: the 505 version check, the header loop, then routing — a
routed handler runs with the matched route, the index document and assets
go through `send_file` (assets in binary mode), and an unmatched url raises
`HttpError 404`; a raised IndexError from the wildcard loop propagates.
Every branch runs the `finally` close. -/
def handleParsed (routes : List (String × (Request → Effect)))
    (fs : String → Option (List String)) (method url version : String)
    (headerLines : List String) : HandleResult :=
  if version != "HTTP/1.0" && version != "HTTP/1.1" then
    finishEffect ⟨[], some (.httpError 505 "Version Not Supported")⟩
  else
    let headers := readHeaders headerLines
    match resolveRoute routes url with
    | .error e => ⟨[], true, some (.py e)⟩
    | .ok (.routed pattern h) => finishEffect (h ⟨method, url, pattern, headers⟩)
    | .ok .indexFile => finishEffect (send_file fs INDEX_FILE false)
    | .ok .assetFile => finishEffect (send_file fs (STATIC_DIR ++ "/" ++ url) true)
    | .ok .notFound => finishEffect ⟨[], some (.httpError 404 "File Not Found")⟩

/-- Source `Nanoweb.handle` (lines 416-491) for one connection: tokenize
the request line; when it does not split into exactly three tokens, return
before the `try`/`finally` even starts — nothing is written and the
connection is not closed; otherwise run the guarded body, whose `finally`
always closes the connection. -/
def handle (routes : List (String × (Request → Effect)))
    (fs : String → Option (List String)) (requestLine : String)
    (headerLines : List String) : HandleResult :=
  let items := pySplit requestLine
  if h : items.length = 3 then
    handleParsed routes fs (items.get ⟨0, by omega⟩) (items.get ⟨1, by omega⟩)
      (items.get ⟨2, by omega⟩) headerLines
  else ⟨[], false, none⟩

/-! ### scan_available_networks (NanoWeb.py lines 105-117, 192-194) -/

/-- One entry of `wlan_sta.scan()`: the tuple (ssid, bssid, channel, RSSI,
security, hidden), with the ssid already decoded from utf-8 (the code
decodes before every use). -/
structure ScanEntry where
  ssid : String
  bssid : List Nat
  channel : Int
  rssi : Int
  security : Int
  hidden : Bool
deriving DecidableEq, Repr

/-- Source `is_printable` (lines 192-194): every character's code point is
strictly between 31 and 127. -/
def is_printable (s : String) : Bool :=
  s.data.all (fun c => 31 < c.toNat && c.toNat < 127)

/-- Lowercase hex digit for a value below 16. -/
def hexDigit (n : Nat) : Char :=
  if n < 10 then Char.ofNat (48 + n) else Char.ofNat (87 + n)

/-- Python `'\x7b:02x\x7d'.format(b)` for one hardware-address byte. -/
def hexByte (b : Nat) : String :=
  String.mk [hexDigit (b / 16 % 16), hexDigit (b % 16)]

/-- `':'.join('\x7b:02x\x7d'.format(b) for b in bssid)`: the colon-hex
hardware address. -/
def macHex (bs : List Nat) : String :=
  String.intercalate ":" (bs.map hexByte)

/-- Ordering used by `sorted(networks, key=lambda network: network[3],
reverse=True)`: descending signal strength. -/
def rssiGe (a b : ScanEntry) : Prop := b.rssi ≤ a.rssi

instance : DecidableRel rssiGe :=
  fun a b => inferInstanceAs (Decidable (b.rssi ≤ a.rssi))

instance : IsTotal ScanEntry rssiGe := ⟨fun a b => le_total b.rssi a.rssi⟩

instance : IsTrans ScanEntry rssiGe := ⟨fun _ _ _ h h2 => le_trans h2 h⟩

/-- Comprehension filter `if ssid.decode('utf-8') and
self.is_printable(ssid.decode('utf-8'))`: a truthy (non-empty) printable
name. -/
def validSsid (e : ScanEntry) : Bool := e.ssid != "" && is_printable e.ssid

/-- Tuple built for one kept entry: (name, colon-hex address, strength). -/
def scanView (e : ScanEntry) : String × String × Int :=
  (e.ssid, macHex e.bssid, e.rssi)

/-- Source `scan_available_networks` (lines 105-117): stable-sort the scan
result by descending RSSI — Python's `sorted` is exactly the stable sort
for the comparator, and `List.insertionSort` with `rssiGe` is stable (the
filter characterization proved below) — then keep and format the valid
entries in that order. -/
def scan_available_networks (networks : List ScanEntry) :
    List (String × String × Int) :=
  let sorted_networks := networks.insertionSort rssiGe
  sorted_networks.filterMap
    (fun e => if validSsid e then some (scanView e) else none)

/-! ### Theorems: retry loop behaviour -/

/-- Helper: when the predicate never accepts, the loop runs to exhaustion,
calling and sleeping once per remaining iteration. -/
theorem retryGo_never {α : Type} (predicate : α → Bool) (action : Nat → α)
    (h : ∀ i, predicate (action i) = false) :
    ∀ (fuel i : Nat), retryGo predicate action i fuel =
      ⟨false, none, i + fuel, i + fuel⟩ := by
  intro fuel
  induction fuel with
  | zero => intro i; simp [retryGo]
  | succ n ih =>
    intro i
    have hadd : i + (n + 1) = i + 1 + n := by omega
    simp [retryGo, h i, ih (i + 1), hadd]

/-- C3 counterexample: with `max_retries = 0` the loop body never runs, so
although the predicate accepts the first action result, `retry_until`
returns (False, None) with zero invocations instead of returning success
immediately. -/
theorem C3_counterexample_zero_retries :
    (fun _ : Nat => true) ((fun i : Nat => i) 0) = true ∧
    retry_until (fun _ : Nat => true) (fun i : Nat => i) 0 1000 =
      ⟨false, none, 0, 0⟩ :=
  ⟨rfl, rfl⟩

/-- C3 (amended): provided `max_retries ≥ 1`, when the predicate accepts
the first action result `retry_until` returns (True, that result) after
exactly one invocation and zero sleeps; and for every `max_retries`, when
the predicate never accepts, it invokes the action exactly `max_retries`
times and returns (False, None). -/
theorem C3_retry_first_success_and_exhaustion {α : Type}
    (predicate : α → Bool) (action : Nat → α) (max_retries delay_ms : Nat) :
    (1 ≤ max_retries → predicate (action 0) = true →
      retry_until predicate action max_retries delay_ms =
        ⟨true, some (action 0), 1, 0⟩) ∧
    ((∀ i, predicate (action i) = false) →
      retry_until predicate action max_retries delay_ms =
        ⟨false, none, max_retries, max_retries⟩) := by
  constructor
  · intro hpos hfirst
    match max_retries, hpos with
    | n + 1, _ => simp [retry_until, retryGo, hfirst]
  · intro hnever
    have h := retryGo_never predicate action hnever max_retries 0
    simpa [retry_until] using h

/-- C3 witness: the amended theorem applied at concrete inputs, once for
the immediate-success half and once for the exhaustion half. -/
theorem C3_witness :
    retry_until (fun n : Nat => n == 0) (fun i : Nat => i) 3 1000 =
      ⟨true, some 0, 1, 0⟩ ∧
    retry_until (fun _ : Nat => false) (fun i : Nat => i) 3 1000 =
      ⟨false, none, 3, 3⟩ :=
  ⟨(C3_retry_first_success_and_exhaustion (fun n => n == 0) (fun i => i) 3 1000).1
      (by decide) (by decide),
   (C3_retry_first_success_and_exhaustion (fun _ => false) (fun i => i) 3 1000).2
      (fun _ => rfl)⟩

/-! ### Theorems: credential store -/

/-- C1: the claim says every mutator (`add`, `remove`, `clear`) immediately
persists the whole mapping, so that memory and file converge when the call
completes. In the source the mutators call the coroutine `save()` without
awaiting it, so the backing file is left untouched: starting from a
converged store, each mutator leaves memory and file different, while the
awaited `save()` (as the HTTP handlers run it) does converge them. -/
theorem C1_mutators_leave_file_stale :
    (CredManager.add ⟨[], []⟩ "home" "secret").credentials =
      [("home", "secret")] ∧
    (CredManager.add ⟨[], []⟩ "home" "secret").file = [] ∧
    (CredManager.add ⟨[], []⟩ "home" "secret").credentials ≠
      (CredManager.add ⟨[], []⟩ "home" "secret").file ∧
    (CredManager.remove ⟨[("home", "secret")], [("home", "secret")]⟩ "home").credentials
      ≠
      (CredManager.remove ⟨[("home", "secret")], [("home", "secret")]⟩ "home").file ∧
    (CredManager.clear ⟨[("home", "secret")], [("home", "secret")]⟩).credentials
      ≠
      (CredManager.clear ⟨[("home", "secret")], [("home", "secret")]⟩).file ∧
    (CredManager.save (CredManager.add ⟨[], []⟩ "home" "secret")).file =
      (CredManager.save (CredManager.add ⟨[], []⟩ "home" "secret")).credentials := by
  refine ⟨rfl, rfl, ?_, ?_, ?_, rfl⟩ <;> decide

/-- Helper: after a dict upsert, looking the key up yields the new value. -/
theorem dictGet_credsSet_self (m : Creds) (k v : String) :
    dictGet (credsSet m k v) k = some v := by
  unfold credsSet
  by_cases h : (m.find? (fun p => p.1 == k)).isSome
  · rw [if_pos h]
    obtain ⟨p0, hp0⟩ := Option.isSome_iff_exists.mp h
    unfold dictGet
    rw [List.find?_map]
    have hpred : (fun q : String × String => q.1 == k) ∘
        (fun p : String × String => if p.1 == k then (k, v) else p) =
        fun p : String × String => p.1 == k := by
      funext p
      by_cases hk : p.1 = k <;> simp [hk]
    rw [hpred, hp0]
    have hkeq := List.find?_some hp0
    simp only [] at hkeq
    have hk : p0.1 = k := by simpa using hkeq
    simp [hk]
  · rw [if_neg h]
    have hnone : m.find? (fun p => p.1 == k) = none := by
      cases hfind : m.find? (fun p => p.1 == k) with
      | none => rfl
      | some p => rw [hfind] at h; simp at h
    unfold dictGet
    rw [List.find?_append, hnone]
    simp

/-- Helper: after a dict deletion, looking the key up yields nothing. -/
theorem dictGet_credsDel_self (m : Creds) (k : String) :
    dictGet (credsDel m k) k = none := by
  unfold dictGet credsDel
  have hfind : List.find? (fun p : String × String => p.1 == k)
      (List.filter (fun p => p.1 != k) m) = none := by
    rw [List.find?_eq_none]
    intro p hp
    have h2 := (List.mem_filter.mp hp).2
    simpa using h2
  rw [hfind]
  rfl

/-- C6 counterexample: `add` with the empty (falsy) secret followed by
`get` of the same name returns nothing, not the pair `("home", "")` the
universally quantified claim demands. -/
theorem C6_counterexample_empty_secret :
    CredManager.get (CredManager.add ⟨[], []⟩ "home" "") "home" = none := by
  decide

/-- C6 (amended): for every name and non-falsy (non-empty) secret, `get`
right after `add` returns the pair; `get` after `remove` returns nothing;
and `get` returns nothing when the name is absent or the stored secret is
falsy. -/
theorem C6_get_add_remove (mgr : CredManager) (name secret : String) :
    (secret ≠ "" →
      (CredManager.add mgr name secret).get name = some (name, secret)) ∧
    ((CredManager.remove mgr name).get name = none) ∧
    (dictGet mgr.credentials name = none → mgr.get name = none) ∧
    (dictGet mgr.credentials name = some "" → mgr.get name = none) := by
  refine ⟨?_, ?_, ?_, ?_⟩
  · intro hs
    unfold CredManager.add CredManager.unawaitedSave CredManager.get
    rw [dictGet_credsSet_self]
    simp [hs]
  · unfold CredManager.remove
    by_cases h : (dictGet mgr.credentials name).isSome
    · rw [if_pos h]
      unfold CredManager.unawaitedSave CredManager.get
      rw [dictGet_credsDel_self]
    · rw [if_neg h]
      have hnone : dictGet mgr.credentials name = none := by
        cases hfind : dictGet mgr.credentials name with
        | none => rfl
        | some p => rw [hfind] at h; simp at h
      unfold CredManager.get
      rw [hnone]
  · intro hnone
    unfold CredManager.get
    rw [hnone]
  · intro hempty
    unfold CredManager.get
    rw [hempty]
    simp

/-- C6 witness: the amended theorem applied at concrete stores, one
application per conjunct so that every hypothesis is discharged. -/
theorem C6_witness :
    (CredManager.add ⟨[], []⟩ "home" "pw").get "home" = some ("home", "pw") ∧
    (CredManager.remove ⟨[("home", "pw")], []⟩ "home").get "home" = none ∧
    (CredManager.get ⟨[], []⟩ "home" = none) ∧
    (CredManager.get ⟨[("home", "")], []⟩ "home" = none) :=
  ⟨(C6_get_add_remove ⟨[], []⟩ "home" "pw").1 (by decide),
   (C6_get_add_remove ⟨[("home", "pw")], []⟩ "home" "pw").2.1,
   (C6_get_add_remove ⟨[], []⟩ "home" "pw").2.2.1 (by decide),
   (C6_get_add_remove ⟨[("home", "")], []⟩ "home" "pw").2.2.2 (by decide)⟩

/-! ### Theorems: connect timeout -/

/-- C2: the claim says `connect` with `timeout_ms = 3000` polls at most 3
times, then returns false and deactivates the station radio. In the source
`timeout_ms / delay_ms` is Python true division, which yields the float
3.0; `range(3.0)` inside `retry_until` then raises TypeError before any
poll. Hence `connect` raises for every oracle — the station radio is left
active and the call never returns false. -/
theorem C2_connect_raises_typeError (oracle : Nat → Bool) (ssid password : String) :
    ConnectionManager.connect oracle ssid password 3000 =
      ({ active := true, connectAttempt := some (ssid, password) },
        .error .typeError) := by
  rfl

/-! ### Theorems: request handling -/

/-- Helper: the effect tail of `handle` always reaches the `finally` and
closes the connection. -/
theorem finishEffect_closed (eff : Effect) : (finishEffect eff).closed = true := by
  rcases eff with ⟨w, e⟩
  unfold finishEffect
  rcases e with - | x
  · rfl
  · rcases x with ⟨c, r⟩ | n | e
    · rfl
    · dsimp only
      split <;> rfl
    · rfl

/-- Helper: every path through the guarded body of `handle` closes the
connection. -/
theorem handleParsed_closed (routes : List (String × (Request → Effect)))
    (fs : String → Option (List String)) (method url version : String)
    (headerLines : List String) :
    (handleParsed routes fs method url version headerLines).closed = true := by
  unfold handleParsed
  split
  · exact finishEffect_closed _
  · split <;> first | rfl | exact finishEffect_closed _

/-- C4 counterexample: a request line with two tokens makes `handle` return
before the `try`/`finally` block is entered — nothing is written, but the
connection is not closed either, contradicting the claim that every exit
path closes it. -/
theorem C4_counterexample_short_line_leaves_open :
    (handle [] (fun _ => none) "GET /ping" []).writes = [] ∧
    (handle [] (fun _ => none) "GET /ping" []).closed = false := by
  exact ⟨rfl, rfl⟩

/-- C4 (amended): a request line that does not tokenize into exactly three
tokens produces no response bytes and is rejected silently, but on that
early-return path the connection is not closed by the handler; on every
path where the request line does have three tokens the connection is
closed. -/
theorem C4_request_line_paths (routes : List (String × (Request → Effect)))
    (fs : String → Option (List String)) (requestLine : String)
    (headerLines : List String) :
    ((pySplit requestLine).length ≠ 3 →
      handle routes fs requestLine headerLines = ⟨[], false, none⟩) ∧
    ((pySplit requestLine).length = 3 →
      (handle routes fs requestLine headerLines).closed = true) := by
  constructor
  · intro h
    unfold handle
    rw [dif_neg h]
  · intro h
    unfold handle
    rw [dif_pos h]
    exact handleParsed_closed _ _ _ _ _ _

/-- C4 witness: the amended theorem applied to a concrete three-token
request (connection closed) and a concrete one-token request (no bytes, no
close). -/
theorem C4_witness :
    (handle [] (fun _ => none) "GET /ping HTTP/1.1" [""]).closed = true ∧
    handle [] (fun _ => none) "GET" [""] = ⟨[], false, none⟩ :=
  ⟨(C4_request_line_paths [] (fun _ => none) "GET /ping HTTP/1.1" [""]).2 (by decide),
   (C4_request_line_paths [] (fun _ => none) "GET" [""]).1 (by decide)⟩

/-- C9: the routing block of `handle` resolves every url exactly in the
precedence order the specification states — exact table match, then first
matching wildcard route, then the index document for an empty or root url,
then whitelisted asset extensions, then 404 — whenever no route pattern is
the empty string (the captive-portal table has none; an empty pattern would
make the source's `route[-1]` raise IndexError). -/
theorem C9_routing_precedence {H : Type} (routes : List (String × H)) (url : String)
    (hne : ∀ p ∈ routes.map Prod.fst, p ≠ "") :
    resolveRoute routes url = .ok (resolveRouteSpec routes url) := by
  unfold resolveRoute resolveRouteSpec
  cases hex : routes.find? (fun r => r.1 == url) with
  | some r => rfl
  | none =>
    have hloop : ∀ rs : List (String × H), (∀ p ∈ rs.map Prod.fst, p ≠ "") →
        rs.find? (fun r => r.1 == url) = none →
        findRouteLoop url rs =
          .ok (rs.find? (fun r => endsInStar r.1 && wildPrefixMatch r.1 url)) := by
      intro rs
      induction rs with
      | nil => intro _ _; rfl
      | cons r rest ih =>
        intro hne0 hfind
        rcases r with ⟨p, h⟩
        rw [List.find?_eq_none] at hfind
        have hhead : (p == url) = false := by
          have := hfind (p, h) (List.mem_cons_self _ _)
          simpa using this
        have htail : rest.find? (fun r => r.1 == url) = none :=
          List.find?_eq_none.mpr
            (fun x hx => hfind x (List.mem_cons_of_mem _ hx))
        have hp : p ≠ "" := hne0 p (by simp)
        have hpe : (p == "") = false := beq_eq_false_iff_ne.mpr hp
        have htne : (∀ q ∈ rest.map Prod.fst, q ≠ "") :=
          fun q hq => hne0 q (by simp [hq])
        unfold findRouteLoop
        rw [hhead, hpe]
        simp only [Bool.false_eq_true, if_false]
        cases hw : endsInStar p && wildPrefixMatch p url with
        | true =>
          rw [if_pos rfl,
            List.find?_cons_of_pos _ (by simpa using hw)]
        | false =>
          rw [if_neg (by simp),
            List.find?_cons_of_neg _ (by simpa using hw)]
          exact ih htne htail
    rw [hloop routes hne hex]
    cases hw : routes.find? (fun r => endsInStar r.1 && wildPrefixMatch r.1 url) with
    | some r => rfl
    | none => split_ifs <;> rfl

/-- C9 witness: the precedence theorem applied to the captive-portal route
table (handlers abstracted to labels) at a concrete url. -/
theorem C9_witness :
    (∀ p ∈ ([("/ping", "ping"), ("/wifi/scan", "scan"), ("/wifi/add", "add"),
        ("/wifi/list", "list"), ("/wifi/clear", "clear"),
        ("/wifi/connect", "connect")] : List (String × String)).map Prod.fst,
      p ≠ "") ∧
    resolveRoute [("/ping", "ping"), ("/wifi/scan", "scan"), ("/wifi/add", "add"),
        ("/wifi/list", "list"), ("/wifi/clear", "clear"),
        ("/wifi/connect", "connect")] "/wifi/add" =
      .ok (resolveRouteSpec [("/ping", "ping"), ("/wifi/scan", "scan"),
        ("/wifi/add", "add"), ("/wifi/list", "list"), ("/wifi/clear", "clear"),
        ("/wifi/connect", "connect")] "/wifi/add") :=
  ⟨by decide,
   C9_routing_precedence [("/ping", "ping"), ("/wifi/scan", "scan"),
      ("/wifi/add", "add"), ("/wifi/list", "list"), ("/wifi/clear", "clear"),
      ("/wifi/connect", "connect")] "/wifi/add" (by decide)⟩

/-- C7 counterexample: a 404 produced by the engine (unknown route on a
server whose table carries the ping handler) is rendered by the default
`callback_error`, i.e. the HTML `error` writer — its body is an `<h1>`
page, and no write is a JSON object, contradicting the claim that every
error response carries a JSON `\x7b"error": ...\x7d` body. -/
theorem C7_counterexample_404_html :
    handle [("/ping", fun _ => ⟨json_write (jsonDumps1 "status" "pong"), none⟩)]
        (fun _ => none) "GET /nope HTTP/1.1" [""] =
      ⟨error 404 "File Not Found", true, none⟩ ∧
    (error 404 "File Not Found").all
      (fun w => w.data.head? != some '\x7b') = true := by
  exact ⟨rfl, by decide⟩

/-- C7 (amended): responses written through `json_error` (the 400 and 500
paths of the JSON handlers) consist of the matching status line, the JSON
content-type block and the body `\x7b"error": message\x7d`; the 404 and 505
errors raised inside the engine are rendered by the default `callback_error`
as an HTML `<h1>` page under the matching status line, and none of those
writes is a JSON object. -/
theorem C7_error_response_shapes (routes : List (String × (Request → Effect)))
    (fs : String → Option (List String)) (method url version : String)
    (headerLines : List String) (code : Nat) (reason message : String) :
    ((json_error code reason message).head? =
        some ("HTTP/1.1 " ++ toString code ++ " " ++ reason ++ "\r\n") ∧
      (json_error code reason message).getLast? =
        some (jsonDumps1 "error" message) ∧
      (jsonDumps1 "error" message).data.head? = some '\x7b') ∧
    ((error code reason).all (fun w => w.data.head? != some '\x7b') = true) ∧
    (resolveRoute routes url = .ok .notFound →
      handleParsed routes fs method url "HTTP/1.1" headerLines =
        ⟨error 404 "File Not Found", true, none⟩) ∧
    (version ≠ "HTTP/1.0" → version ≠ "HTTP/1.1" →
      handleParsed routes fs method url version headerLines =
        ⟨error 505 "Version Not Supported", true, none⟩) := by
  refine ⟨⟨rfl, rfl, ?_⟩, ?_, ?_, ?_⟩
  · simp [jsonDumps1, String.data_append]
  · simp [error, String.data_append]
  · intro hres
    unfold handleParsed
    rw [if_neg (by decide)]
    dsimp only
    rw [hres]
    unfold finishEffect
    simp
  · intro h0 h1
    unfold handleParsed
    rw [if_pos (by simp [bne_iff_ne, h0, h1])]
    unfold finishEffect
    simp

/-- C7 witness: the shape theorem applied at concrete inputs — a concrete
`json_error`, a concrete engine 404 (hypothesis discharged by evaluating the
routing), and a concrete engine 505. -/
theorem C7_witness :
    (json_error 400 "Bad Request" "x").getLast? = some (jsonDumps1 "error" "x") ∧
    handleParsed [("/ping", fun _ => ⟨[], none⟩)] (fun _ => none)
      "GET" "/nope" "HTTP/1.1" [""] =
      ⟨error 404 "File Not Found", true, none⟩ ∧
    handleParsed [] (fun _ => none) "GET" "/ping" "HTTP/2.0" [""] =
      ⟨error 505 "Version Not Supported", true, none⟩ :=
  ⟨(C7_error_response_shapes [] (fun _ => none) "GET" "/" "HTTP/1.1" [""]
      400 "Bad Request" "x").1.2.1,
   (C7_error_response_shapes [("/ping", fun _ => ⟨[], none⟩)] (fun _ => none)
      "GET" "/nope" "HTTP/1.1" [""] 404 "File Not Found" "x").2.2.1 rfl,
   (C7_error_response_shapes [] (fun _ => none) "GET" "/ping" "HTTP/2.0" [""]
      505 "Version Not Supported" "x").2.2.2 (by decide) (by decide)⟩

/-! ### Theorems: /wifi/add handler -/

/-- C8: `__wifi_add` with a missing or empty ssid or password responds with
the 400 validation error and leaves the credential store (memory and file)
exactly as it was; with both fields present and non-empty it stores the
pair (retrievable by `get`), persists it (file equals memory afterwards)
and responds with the saved status. -/
theorem C8_wifi_add_validation (content : List (String × String)) (mgr : CredManager) :
    ((pyFalsy (dictGet content "ssid") || pyFalsy (dictGet content "password")) = true →
      wifi_add content mgr =
        (json_error 400 "Bad Request" "both ssid and password must be provided", mgr)) ∧
    (∀ ssid password, dictGet content "ssid" = some ssid →
      dictGet content "password" = some password → ssid ≠ "" → password ≠ "" →
      wifi_add content mgr =
        (json_write (jsonDumps1 "status" "credentials saved"),
          (CredManager.add mgr ssid password).save) ∧
      ((CredManager.add mgr ssid password).save).get ssid = some (ssid, password) ∧
      ((CredManager.add mgr ssid password).save).file =
        ((CredManager.add mgr ssid password).save).credentials) := by
  constructor
  · intro hfalsy
    unfold wifi_add
    cases hss : dictGet content "ssid" with
    | none => rfl
    | some s =>
      cases hpp : dictGet content "password" with
      | none => rfl
      | some p =>
        rw [hss, hpp] at hfalsy
        have : (s == "" || p == "") = true := by simpa [pyFalsy] using hfalsy
        simp only [this, if_true]
  · intro ssid password hss hpp hs hp
    have hcond : (ssid == "" || password == "") = false := by
      simp [hs, hp]
    refine ⟨?_, ?_, rfl⟩
    · unfold wifi_add
      rw [hss, hpp]
      simp [hcond]
    · unfold CredManager.save CredManager.add CredManager.unawaitedSave CredManager.get
      dsimp only
      rw [dictGet_credsSet_self]
      simp [hp]

/-- C8 witness: the handler theorem applied to a concrete body missing the
password (400, store untouched) and to a concrete complete body (stored,
persisted, success response). -/
theorem C8_witness :
    wifi_add [("ssid", "home")] ⟨[], []⟩ =
      (json_error 400 "Bad Request" "both ssid and password must be provided",
        ⟨[], []⟩) ∧
    wifi_add [("ssid", "home"), ("password", "secret")] ⟨[], []⟩ =
      (json_write (jsonDumps1 "status" "credentials saved"),
        (CredManager.add ⟨[], []⟩ "home" "secret").save) ∧
    ((CredManager.add ⟨[], []⟩ "home" "secret").save).get "home" =
      some ("home", "secret") :=
  ⟨(C8_wifi_add_validation [("ssid", "home")] ⟨[], []⟩).1 (by decide),
   ((C8_wifi_add_validation [("ssid", "home"), ("password", "secret")] ⟨[], []⟩).2
      "home" "secret" (by decide) (by decide) (by decide) (by decide)).1,
   ((C8_wifi_add_validation [("ssid", "home"), ("password", "secret")] ⟨[], []⟩).2
      "home" "secret" (by decide) (by decide) (by decide) (by decide)).2.1⟩

/-- C10: an absent or malformed JSON body makes `json_read` fall back to
the empty dict instead of raising, so `__wifi_add` answers with the 400
validation error (store untouched), not a 500 internal error. -/
theorem C10_json_read_fallback (body : Body) (mgr : CredManager) :
    (body = .absent ∨ ∃ raw, body = .malformed raw) →
    json_read body = [] ∧
    wifi_add_raw body mgr =
      (json_error 400 "Bad Request" "both ssid and password must be provided",
        mgr) := by
  intro h
  have hempty : json_read body = [] := by
    rcases h with h | ⟨raw, h⟩ <;> subst h <;> rfl
  refine ⟨hempty, ?_⟩
  unfold wifi_add_raw
  rw [hempty]
  rfl

/-- C10 witness: the fallback theorem applied to the absent body. -/
theorem C10_witness :
    json_read .absent = [] ∧
    wifi_add_raw .absent ⟨[], []⟩ =
      (json_error 400 "Bad Request" "both ssid and password must be provided",
        ⟨[], []⟩) :=
  C10_json_read_fallback .absent ⟨[], []⟩ (Or.inl rfl)

/-! ### Theorems: network scanning -/

/-- Helper: inserting an element that satisfies `p`, when everything it is
ordered strictly after fails `p`, prepends it to the `p`-filtered list. -/
theorem scanFilter_orderedInsert_pos {α : Type} (r : α → α → Prop)
    [DecidableRel r] (p : α → Bool) (x : α) (hx : p x = true)
    (h1 : ∀ y, ¬ r x y → p y = false) :
    ∀ l : List α, (List.orderedInsert r x l).filter p = x :: l.filter p := by
  intro l
  induction l with
  | nil => simp [List.orderedInsert, hx]
  | cons y ys ih =>
    by_cases hr : r x y
    · simp [List.orderedInsert, hr, hx]
    · have hy : p y = false := h1 y hr
      simp [List.orderedInsert, hr, hy, ih]

/-- Helper: inserting an element that fails `p` leaves the `p`-filtered
list unchanged. -/
theorem scanFilter_orderedInsert_neg {α : Type} (r : α → α → Prop)
    [DecidableRel r] (p : α → Bool) (x : α) (hx : p x = false) :
    ∀ l : List α, (List.orderedInsert r x l).filter p = l.filter p := by
  intro l
  induction l with
  | nil => simp [List.orderedInsert, hx]
  | cons y ys ih =>
    by_cases hr : r x y
    · simp [List.orderedInsert, hr, hx]
    · simp only [List.orderedInsert, hr, if_false, List.filter_cons, ih]

/-- Stability of the insertion sort used to model Python's `sorted`: when
all the elements selected by `p` are mutually `r`-comparable, sorting does
not disturb their relative order, i.e. the `p`-filtered output equals the
`p`-filtered input. -/
theorem scanFilter_insertionSort {α : Type} (r : α → α → Prop)
    [DecidableRel r] (p : α → Bool)
    (hcomp : ∀ x y, p x = true → p y = true → r x y) :
    ∀ l : List α, (l.insertionSort r).filter p = l.filter p := by
  intro l
  induction l with
  | nil => rfl
  | cons x xs ih =>
    cases hx : p x with
    | true =>
      have h1 : ∀ y, ¬ r x y → p y = false := by
        intro y hry
        cases hy : p y with
        | true => exact absurd (hcomp x y hx hy) hry
        | false => rfl
      rw [List.insertionSort, scanFilter_orderedInsert_pos r p x hx h1, ih]
      simp [hx]
    | false =>
      rw [List.insertionSort, scanFilter_orderedInsert_neg r p x hx, ih]
      simp [hx]

/-- Helper: `filterMap` carries a pairwise relation along. -/
theorem scanPairwise_filterMap {α β : Type} (f : α → Option β)
    (R : α → α → Prop) (S : β → β → Prop)
    (h : ∀ a b x y, R a b → f a = some x → f b = some y → S x y) :
    ∀ l : List α, l.Pairwise R → (l.filterMap f).Pairwise S := by
  intro l
  induction l with
  | nil => intro _; simp
  | cons a l ih =>
    intro hp
    rw [List.pairwise_cons] at hp
    cases hfa : f a with
    | none => simpa [List.filterMap_cons, hfa] using ih hp.2
    | some x =>
      rw [List.filterMap_cons, hfa, List.pairwise_cons]
      refine ⟨?_, ih hp.2⟩
      intro y hy
      obtain ⟨b, hb, hfb⟩ := List.mem_filterMap.mp hy
      exact h a b x y (hp.1 b hb) hfa hfb

/-- Helper: the strength of a formatted entry is the entry's RSSI. -/
theorem scanView_rssi (e : ScanEntry) : (scanView e).2.2 = e.rssi := rfl

/-- Helper: filtering the formatted output on a strength value is the same
as formatting the valid entries with that strength, in list order. -/
theorem scanFilterMap_key (v : Int) :
    ∀ l : List ScanEntry,
      ((l.filterMap (fun e => if validSsid e then some (scanView e) else none)).filter
        (fun t => t.2.2 == v)) =
      (l.filter (fun e => validSsid e && e.rssi == v)).map scanView := by
  intro l
  induction l with
  | nil => rfl
  | cons e l ih =>
    cases hv : validSsid e with
    | false => simp [List.filterMap_cons, hv, ih]
    | true =>
      cases hr : e.rssi == v with
      | true =>
        simp [List.filterMap_cons, hv, List.filter_cons, scanView_rssi, hr, ih]
      | false =>
        simp [List.filterMap_cons, hv, List.filter_cons, scanView_rssi, hr, ih]

/-- C5: every returned entry has a non-empty printable name; the output is
ordered by descending signal strength; for each strength value the output
lists exactly the valid scanned entries of that strength in scan order
(sortedness plus this filter characterization pin the output down as the
stable descending sort of the valid entries); and the specification's
concrete example — names `""`, `"Café"`, `"Home"` with strengths −70, −80,
−40 — returns exactly the Home network. -/
theorem C5_scan_available_networks :
    (∀ (networks : List ScanEntry) (x : String × String × Int),
      x ∈ scan_available_networks networks →
        x.1 ≠ "" ∧ is_printable x.1 = true) ∧
    (∀ networks : List ScanEntry,
      (scan_available_networks networks).Pairwise (fun t u => u.2.2 ≤ t.2.2)) ∧
    (∀ (networks : List ScanEntry) (v : Int),
      (scan_available_networks networks).filter (fun t => t.2.2 == v) =
        (networks.filter (fun e => validSsid e && e.rssi == v)).map scanView) ∧
    scan_available_networks
      [⟨"", [0, 17, 34, 51, 68, 85], 1, -70, 0, false⟩,
       ⟨"Café", [1, 2, 3, 4, 5, 6], 6, -80, 0, false⟩,
       ⟨"Home", [170, 187, 204, 221, 238, 255], 11, -40, 0, false⟩] =
      [("Home", "aa:bb:cc:dd:ee:ff", -40)] := by
  refine ⟨?_, ?_, ?_, ?_⟩
  · intro networks x hx
    unfold scan_available_networks at hx
    obtain ⟨e, _, he⟩ := List.mem_filterMap.mp hx
    cases hv : validSsid e with
    | false => rw [hv] at he; simp at he
    | true =>
      rw [hv] at he
      simp only [if_true] at he
      obtain rfl : scanView e = x := by simpa using he
      have hv2 := hv
      simp only [validSsid, Bool.and_eq_true] at hv2
      exact ⟨by simpa [scanView] using hv2.1, by simpa [scanView] using hv2.2⟩
  · intro networks
    unfold scan_available_networks
    refine scanPairwise_filterMap _ rssiGe _ ?_ _
      (List.sorted_insertionSort rssiGe networks)
    intro a b x y hr hfa hfb
    cases hva : validSsid a with
    | false => rw [hva] at hfa; simp at hfa
    | true =>
      cases hvb : validSsid b with
      | false => rw [hvb] at hfb; simp at hfb
      | true =>
        rw [hva] at hfa
        rw [hvb] at hfb
        simp only [if_true, Option.some.injEq] at hfa hfb
        subst hfa
        subst hfb
        exact hr
  · intro networks v
    unfold scan_available_networks
    rw [scanFilterMap_key v]
    rw [scanFilter_insertionSort rssiGe (fun e => validSsid e && e.rssi == v)]
    intro x y hx hy
    simp only [Bool.and_eq_true] at hx hy
    have hxr : x.rssi = v := by simpa using hx.2
    have hyr : y.rssi = v := by simpa using hy.2
    unfold rssiGe
    rw [hxr, hyr]
  · decide

/-- C5 witness: the scan theorem applied to the specification's concrete
example — the membership hypothesis of the validity conjunct discharged at
the returned Home entry. -/
theorem C5_witness :
    ("Home", "aa:bb:cc:dd:ee:ff", (-40 : Int)).1 ≠ "" ∧
    is_printable ("Home", "aa:bb:cc:dd:ee:ff", (-40 : Int)).1 = true :=
  C5_scan_available_networks.1
    [⟨"", [0, 17, 34, 51, 68, 85], 1, -70, 0, false⟩,
     ⟨"Café", [1, 2, 3, 4, 5, 6], 6, -80, 0, false⟩,
     ⟨"Home", [170, 187, 204, 221, 238, 255], 11, -40, 0, false⟩]
    ("Home", "aa:bb:cc:dd:ee:ff", -40) (by decide)

end Pawbot
